import Mathlib

/-!
Shallow embedding of the usgs-earthquake-monitor proximity-search core.

The definitions below are translated from the repository sources:

* src/api/api/earthquake/utils.py      (calculate_distance)
* src/api/api/earthquake/services.py   (find_nearest_earthquake)
* src/api/api/earthquake/views.py      (EarthquakeSearchView.post)
* src/api/api/earthquake/models.py     (City, EarthquakeSearchResult)

Python floats are modelled as real numbers; the Decimal city coordinates are
also real numbers (the source converts them to float before computing).  The
geopy geodesic distance used by the view when persisting distance_km lives in
an external library, so it is a parameter of the environment rather than a
definition of this file.
-/

/-- Calendar date as produced by django.utils.dateparse.parse_date. -/
structure Date where
  year : Nat
  month : Nat
  day : Nat
deriving DecidableEq

/-- Gregorian leap-year rule used by datetime.date validation. -/
def isLeap (y : Nat) : Bool :=
  y % 4 == 0 && (y % 100 != 0 || y % 400 == 0)

/-- Number of days in a month, as validated by datetime.date. -/
def daysInMonth (y m : Nat) : Nat :=
  if m = 2 then (if isLeap y then 29 else 28)
  else if m = 4 || m = 6 || m = 9 || m = 11 then 30 else 31

/-- Strict lexicographic order on dates; models the comparison
start_date > end_date performed by the view. -/
def dateLt (a b : Date) : Bool :=
  decide (a.year < b.year) ||
    (a.year == b.year && (decide (a.month < b.month) ||
      (a.month == b.month && decide (a.day < b.day))))

/-- Value of a decimal digit character, none for a non-digit. -/
def digitVal (c : Char) : Option Nat :=
  if c.isDigit then some (c.toNat - 48) else none

/-- Decimal value of a digit string, none when a non-digit occurs. -/
def digitsVal : List Char → Nat → Option Nat
  | [], acc => some acc
  | c :: cs, acc =>
    match digitVal c with
    | some d => digitsVal cs (acc * 10 + d)
    | none => none

/-- Split a character list on a separator, keeping empty groups. -/
def splitOnChar (sep : Char) : List Char → List (List Char)
  | [] => [[]]
  | c :: cs =>
    match splitOnChar sep cs with
    | [] => [[]]
    | g :: gs => if c = sep then [] :: g :: gs else (c :: g) :: gs

/-- Parse a run of digits whose length lies in the range lo..hi. -/
def parseNum (cs : List Char) (lo hi : Nat) : Option Nat :=
  if lo ≤ cs.length ∧ cs.length ≤ hi then digitsVal cs 0 else none

/-- Model of django.utils.dateparse.parse_date: the anchored pattern
four digits, dash, one or two digits, dash, one or two digits, followed by
datetime.date construction.  Returns none when the pattern does not match or
the calendar validation fails (the source raises an uncaught ValueError for a
matching pattern with an out-of-range component; no claim exercises that
corner). -/
def parse_date (s : String) : Option Date :=
  match splitOnChar '-' s.toList with
  | [ys, ms, ds] =>
    match parseNum ys 4 4, parseNum ms 1 2, parseNum ds 1 2 with
    | some y, some m, some d =>
      if 1 ≤ y ∧ 1 ≤ m ∧ m ≤ 12 ∧ 1 ≤ d ∧ d ≤ daysInMonth y m then
        some ⟨y, m, d⟩
      else none
    | _, _, _ => none
  | _ => none

/-- The cache key computed by the view:
the f-string earthquake:{city_id}:{start_str}:{end_str} built from the RAW
request strings. -/
def cacheKey (cid : Nat) (sstr estr : String) : String :=
  "earthquake:" ++ toString cid ++ ":" ++ sstr ++ ":" ++ estr

/-- A UTC wall-clock instant, as produced by datetime.utcfromtimestamp.
The sub-second component is dropped (it is zero for every input considered by
the claims). -/
structure UTCTime where
  year : Int
  month : Int
  day : Int
  hour : Int
  minute : Int
  second : Int
deriving DecidableEq

/-- Civil date from days since the Unix epoch (proleptic Gregorian),
the arithmetic performed inside utcfromtimestamp. -/
def civilFromDays (z0 : Int) : Int × Int × Int :=
  let z := z0 + 719468
  let era := Int.fdiv z 146097
  let doe := z - era * 146097
  let yoe := Int.fdiv (doe - Int.fdiv doe 1460 + Int.fdiv doe 36524 - Int.fdiv doe 146096) 365
  let y := yoe + era * 400
  let doy := doe - (365 * yoe + Int.fdiv yoe 4 - Int.fdiv yoe 100)
  let mp := Int.fdiv (5 * doy + 2) 153
  let d := doy - Int.fdiv (153 * mp + 2) 5 + 1
  let m := mp + (if mp < 10 then 3 else -9)
  (y + (if m ≤ 2 then 1 else 0), m, d)

/-- Model of datetime.utcfromtimestamp on a rational number of epoch
seconds (the view passes props time divided by 1000.0). -/
def utcFromTimestamp (t : ℚ) : UTCTime :=
  let s : Int := ⌊t⌋
  let days := Int.fdiv s 86400
  let sod := s - days * 86400
  let c := civilFromDays days
  ⟨c.1, c.2.1, c.2.2, Int.fdiv sod 3600, Int.fdiv (Int.emod sod 3600) 60, Int.emod sod 60⟩

/-- GeoJSON geometry of a feed feature: the coordinates triple
longitude, latitude, depth.  Indexing past the end yields 0 in the model;
the source assumes at least two entries, and every claim supplies three. -/
structure Geometry where
  coordinates : List ℝ

/-- GeoJSON properties of a feed feature used by the view. -/
structure Properties where
  mag : ℝ
  place : String
  time : Int

/-- One feed event (a GeoJSON feature). -/
structure Feature where
  geometry : Geometry
  properties : Properties

/-- The feed response dict: an association list from keys to feature lists.
The source only ever reads the "features" key; the values of other keys are
never inspected, so representing them with the same value type loses
nothing the code observes. -/
abbrev EqDict := List (String × List Feature)

/-- A registered city (models.City); Decimal coordinates become reals. -/
structure City where
  id : Nat
  name : String
  latitude : ℝ
  longitude : ℝ

/-- A persisted EarthquakeSearchResult row.  The generated primary key and
created_at timestamp are omitted: no claim mentions them. -/
structure SearchResult where
  city_id : Nat
  start_date : Date
  end_date : Date
  raw_earthquake_data : Option Feature
  nearest_earthquake_location : Option String
  nearest_earthquake_magnitude : Option ℝ
  nearest_earthquake_time : Option UTCTime
  distance_km : Option ℝ

/-- External collaborators of one request: the registered cities, the outcome
of the single feed fetch the request would perform (error = the exception
raised by fetch_earthquakes), and the geopy geodesic distance function
(external library code, hence a parameter). -/
structure Env where
  cities : List City
  feed : Except String EqDict
  geodesic_km : ℝ → ℝ → ℝ → ℝ → ℝ

/-- Mutable state shared between requests: the durable store of results and
the django cache (most recent write first; TTL is not modelled because every
claim concerns a single instant). -/
structure ServerState where
  store : List SearchResult
  cache : List (String × SearchResult)

/-- The POST body: request.data.get for each of the three keys. -/
structure Request where
  city_id : Option Nat
  start : Option String
  end_ : Option String

/-- The HTTP responses produced by EarthquakeSearchView.post; payloads carry
the serialized record (modelled by the record itself). -/
inductive Response where
  | ok (payload : SearchResult)
  | created (payload : SearchResult)
  | badRequest (error : String)
  | notFound (error : String)
  | badGateway (error : String)

/-- Python math.radians: degrees times pi over 180. -/
noncomputable def radians (x : ℝ) : ℝ := x * Real.pi / 180

/-- Python math.atan2 on real arguments (the sign-of-zero distinctions of
floating point do not exist over the reals). -/
noncomputable def atan2 (y x : ℝ) : ℝ :=
  if 0 < x then Real.arctan (y / x)
  else if x < 0 ∧ 0 ≤ y then Real.arctan (y / x) + Real.pi
  else if x < 0 ∧ y < 0 then Real.arctan (y / x) - Real.pi
  else if x = 0 ∧ 0 < y then Real.pi / 2
  else if x = 0 ∧ y < 0 then -(Real.pi / 2)
  else 0

/-- The intermediate quantity a of calculate_distance (utils.py). -/
noncomputable def haversineA (lat1 lon1 lat2 lon2 : ℝ) : ℝ :=
  Real.sin (radians (lat2 - lat1) / 2) ^ 2 +
    Real.cos (radians lat1) * Real.cos (radians lat2) *
      Real.sin (radians (lon2 - lon1) / 2) ^ 2

/-- utils.calculate_distance: haversine great-circle distance with Earth
radius 6371 km. -/
noncomputable def calculate_distance (lat1 lon1 lat2 lon2 : ℝ) : ℝ :=
  let a := haversineA lat1 lon1 lat2 lon2
  6371 * (2 * atan2 (Real.sqrt a) (Real.sqrt (1 - a)))

/-- The distance services.find_nearest_earthquake computes for one feature:
coords[0] is the longitude, coords[1] the latitude, and the call is
calculate_distance(city_lat, city_lon, eq_lat, eq_lon). -/
noncomputable def featureDist (city_lat city_lon : ℝ) (f : Feature) : ℝ :=
  calculate_distance city_lat city_lon
    (f.geometry.coordinates.getD 1 0) (f.geometry.coordinates.getD 0 0)

/-- The scan of services.find_nearest_earthquake: min_dist starts at the
float infinity (the top element) and is replaced only on a strict decrease. -/
noncomputable def nearestLoop (dist : Feature → ℝ) :
    List Feature → WithTop ℝ × Option Feature → WithTop ℝ × Option Feature
  | [], acc => acc
  | f :: fs, (m, cur) =>
    if (dist f : WithTop ℝ) < m then nearestLoop dist fs (dist f, some f)
    else nearestLoop dist fs (m, cur)

/-- Association-list lookup, modelling the dict membership test and the
subscript read performed on the feed response. -/
def lookupKey (d : EqDict) (k : String) : Option (List Feature) :=
  (d.find? (fun p => p.1 == k)).map (fun p => p.2)

/-- services.find_nearest_earthquake.  The earthquakes argument is None or a
dict; a falsy dict (empty), a missing "features" key, or an empty feature
list each yield None. -/
noncomputable def find_nearest_earthquake (city_lat city_lon : ℝ)
    (earthquakes : Option EqDict) : Option Feature :=
  match earthquakes with
  | none => none
  | some d =>
    if d.isEmpty then none
    else
      match lookupKey d "features" with
      | none => none
      | some features =>
        if features.isEmpty then none
        else (nearestLoop (featureDist city_lat city_lon) features
          ((⊤ : WithTop ℝ), none)).2

/-- First-strict-minimum selection with a running champion; the loop of
find_nearest_earthquake after its first iteration is this function. -/
noncomputable def pickNearest (dist : Feature → ℝ) : Feature → List Feature → Feature
  | c, [] => c
  | c, f :: fs => if dist f < dist c then pickNearest dist f fs else pickNearest dist c fs

/-- django cache.get on the modelled cache. -/
def cacheGet (cache : List (String × SearchResult)) (k : String) : Option SearchResult :=
  (cache.find? (fun p => p.1 == k)).map (fun p => p.2)

/-- django cache.set: the newest binding shadows older ones. -/
def cacheSet (cache : List (String × SearchResult)) (k : String) (v : SearchResult) :
    List (String × SearchResult) :=
  (k, v) :: cache

/-- EarthquakeSearchResult.objects.filter(city, start_date, end_date).first() -/
def findResult (store : List SearchResult) (cid : Nat) (sd ed : Date) : Option SearchResult :=
  store.find? (fun r =>
    r.city_id == cid && decide (r.start_date = sd) && decide (r.end_date = ed))

/-- Construction of the new EarthquakeSearchResult row in the view: the
nearest-event fields are set only when a nearest feature was found, and
distance_km is computed with the geopy geodesic function on
(city.latitude, city.longitude) against (coords[1], coords[0]). -/
def buildRecord (geo : ℝ → ℝ → ℝ → ℝ → ℝ) (city : City) (sd ed : Date)
    (nearest : Option Feature) : SearchResult :=
  match nearest with
  | none => ⟨city.id, sd, ed, none, none, none, none, none⟩
  | some f =>
    ⟨city.id, sd, ed, some f, some f.properties.place, some f.properties.mag,
      some (utcFromTimestamp ((f.properties.time : ℚ) / 1000)),
      some (geo city.latitude city.longitude
        (f.geometry.coordinates.getD 1 0) (f.geometry.coordinates.getD 0 0))⟩

/-- EarthquakeSearchView.post: validation, cache check, store check, feed
fetch, nearest selection, persistence, cache write.  The boolean records
whether fetch_earthquakes was invoked. -/
noncomputable def post (env : Env) (st : ServerState) (req : Request) :
    Response × ServerState × Bool :=
  match req.city_id, req.start, req.end_ with
  | some cid, some sstr, some estr =>
    if cid = 0 || sstr = "" || estr = "" then
      (.badRequest "Must provide city_id, start, and end in request body", st, false)
    else
      match env.cities.find? (fun c => c.id == cid) with
      | none => (.notFound "City not found", st, false)
      | some city =>
        match parse_date sstr, parse_date estr with
        | some sd, some ed =>
          if dateLt ed sd then (.badRequest "Invalid start/end date", st, false)
          else
            let key := cacheKey cid sstr estr
            match cacheGet st.cache key with
            | some payload => (.ok payload, st, false)
            | none =>
              match findResult st.store city.id sd ed with
              | some existing =>
                (.ok existing, ⟨st.store, cacheSet st.cache key existing⟩, false)
              | none =>
                match env.feed with
                | .error e =>
                  (.badGateway ("Failed to fetch earthquakes: " ++ e), st, true)
                | .ok eq_data =>
                  let nearest := find_nearest_earthquake city.latitude city.longitude
                    (some eq_data)
                  let newRec := buildRecord env.geodesic_km city sd ed nearest
                  (.created newRec, ⟨st.store ++ [newRec], cacheSet st.cache key newRec⟩, true)
        | _, _ => (.badRequest "Invalid start/end date", st, false)
  | _, _, _ =>
    (.badRequest "Must provide city_id, start, and end in request body", st, false)

theorem nearestLoop_eq_pick (dist : Feature → ℝ) (fs : List Feature) (c : Feature) :
    nearestLoop dist fs ((dist c : WithTop ℝ), some c) =
      ((dist (pickNearest dist c fs) : WithTop ℝ), some (pickNearest dist c fs)) := by
  induction fs generalizing c with
  | nil => simp [nearestLoop, pickNearest]
  | cons f fs ih =>
    simp only [nearestLoop, pickNearest]
    by_cases h : dist f < dist c
    · rw [if_pos (by exact_mod_cast h), if_pos h, ih]
    · rw [if_neg (by exact_mod_cast h), if_neg h, ih]

theorem find_nearest_eq_pick (clat clon : ℝ) (d : EqDict) (f : Feature) (fs : List Feature)
    (hk : lookupKey d "features" = some (f :: fs)) :
    find_nearest_earthquake clat clon (some d) =
      some (pickNearest (featureDist clat clon) f fs) := by
  have hd : d.isEmpty = false := by
    cases d with
    | nil => simp [lookupKey] at hk
    | cons p ps => rfl
  have h1 : nearestLoop (featureDist clat clon) (f :: fs) ((⊤ : WithTop ℝ), none) =
      nearestLoop (featureDist clat clon) fs ((featureDist clat clon f : WithTop ℝ), some f) := by
    simp [nearestLoop]
  simp [find_nearest_earthquake, hd, hk, h1, nearestLoop_eq_pick]

theorem pickNearest_spec (dist : Feature → ℝ) (c : Feature) (fs : List Feature) :
    ∃ i : ℕ, ∃ hi : i < (c :: fs).length,
      pickNearest dist c fs = (c :: fs).get ⟨i, hi⟩ ∧
      (∀ j : ℕ, ∀ hj : j < (c :: fs).length,
        dist ((c :: fs).get ⟨i, hi⟩) ≤ dist ((c :: fs).get ⟨j, hj⟩)) ∧
      ∀ j : ℕ, ∀ hj : j < (c :: fs).length, j < i →
        dist ((c :: fs).get ⟨i, hi⟩) < dist ((c :: fs).get ⟨j, hj⟩) := by
  induction fs generalizing c with
  | nil =>
    refine ⟨0, by simp, rfl, ?_, ?_⟩
    · intro j hj
      cases j with
      | zero => exact le_refl _
      | succ j => simp at hj
    · intro j hj hji
      omega
  | cons f fs ih =>
    by_cases h : dist f < dist c
    · obtain ⟨i, hi, hpk, hmin, htie⟩ := ih f
      have hi2 : i + 1 < (c :: f :: fs).length := by simpa using hi
      have hg : (c :: f :: fs).get ⟨i + 1, hi2⟩ = (f :: fs).get ⟨i, hi⟩ := rfl
      refine ⟨i + 1, hi2, ?_, ?_, ?_⟩
      · rw [hg]
        simpa [pickNearest, if_pos h] using hpk
      · intro j hj
        cases j with
        | zero =>
          have h0 : dist ((f :: fs).get ⟨i, hi⟩) ≤ dist f := hmin 0 (by simp)
          rw [hg]
          exact le_trans h0 (le_of_lt h)
        | succ j =>
          have hj2 : j < (f :: fs).length := Nat.lt_of_succ_lt_succ hj
          have := hmin j hj2
          rw [hg]
          exact this
      · intro j hj hji
        cases j with
        | zero =>
          have h0 : dist ((f :: fs).get ⟨i, hi⟩) ≤ dist f := hmin 0 (by simp)
          rw [hg]
          exact lt_of_le_of_lt h0 h
        | succ j =>
          have hj2 : j < (f :: fs).length := Nat.lt_of_succ_lt_succ hj
          have := htie j hj2 (Nat.lt_of_succ_lt_succ hji)
          rw [hg]
          exact this
    · obtain ⟨i, hi, hpk, hmin, htie⟩ := ih c
      have hcf : dist c ≤ dist f := le_of_not_lt h
      have hpick : pickNearest dist c (f :: fs) = pickNearest dist c fs := by
        simp [pickNearest, if_neg h]
      have hc0 : dist ((c :: fs).get ⟨i, hi⟩) ≤ dist c := hmin 0 (by simp)
      cases i with
      | zero =>
        refine ⟨0, by simp, ?_, ?_, ?_⟩
        · rw [hpick, hpk]
          rfl
        · intro j hj
          cases j with
          | zero => exact le_refl _
          | succ j =>
            cases j with
            | zero => exact le_trans hc0 hcf
            | succ j =>
              have hj2 : j + 1 < (c :: fs).length := by
                simpa using Nat.lt_of_succ_lt_succ hj
              exact hmin (j + 1) hj2
        · intro j hj hji
          omega
      | succ i =>
        have hi2 : i + 2 < (c :: f :: fs).length := by simpa using hi
        have hg : (c :: f :: fs).get ⟨i + 2, hi2⟩ = (c :: fs).get ⟨i + 1, hi⟩ := by
          rfl
        refine ⟨i + 2, hi2, ?_, ?_, ?_⟩
        · rw [hpick, hg]
          exact hpk
        · intro j hj
          rw [hg]
          cases j with
          | zero => exact hmin 0 (by simp)
          | succ j =>
            cases j with
            | zero => exact le_trans hc0 hcf
            | succ j =>
              have hj2 : j + 1 < (c :: fs).length := by
                simpa using Nat.lt_of_succ_lt_succ hj
              exact hmin (j + 1) hj2
        · intro j hj hji
          rw [hg]
          have hlt0 : dist ((c :: fs).get ⟨i + 1, hi⟩) < dist c :=
            htie 0 (by simp) (by omega)
          cases j with
          | zero => exact hlt0
          | succ j =>
            cases j with
            | zero => exact lt_of_lt_of_le hlt0 hcf
            | succ j =>
              have hj2 : j + 1 < (c :: fs).length := by
                simpa using Nat.lt_of_succ_lt_succ hj
              exact htie (j + 1) hj2 (by omega)

theorem cacheGet_cacheSet_same (cache : List (String × SearchResult)) (k : String)
    (v : SearchResult) : cacheGet (cacheSet cache k v) k = some v := by
  simp [cacheGet, cacheSet]

theorem post_cache_hit (env : Env) (st : ServerState) (cid : Nat) (sstr estr : String)
    (city : City) (sd ed : Date) (p : SearchResult)
    (hcid : cid ≠ 0) (hs : sstr ≠ "") (he : estr ≠ "")
    (hcity : env.cities.find? (fun c => c.id == cid) = some city)
    (hsd : parse_date sstr = some sd) (hed : parse_date estr = some ed)
    (hord : dateLt ed sd = false)
    (hcache : cacheGet st.cache (cacheKey cid sstr estr) = some p) :
    post env st ⟨some cid, some sstr, some estr⟩ = (.ok p, st, false) := by
  simp [post, hcid, hs, he, hcity, hsd, hed, hord, hcache]

theorem post_store_hit (env : Env) (st : ServerState) (cid : Nat) (sstr estr : String)
    (city : City) (sd ed : Date) (ex : SearchResult)
    (hcid : cid ≠ 0) (hs : sstr ≠ "") (he : estr ≠ "")
    (hcity : env.cities.find? (fun c => c.id == cid) = some city)
    (hsd : parse_date sstr = some sd) (hed : parse_date estr = some ed)
    (hord : dateLt ed sd = false)
    (hcache : cacheGet st.cache (cacheKey cid sstr estr) = none)
    (hstore : findResult st.store city.id sd ed = some ex) :
    post env st ⟨some cid, some sstr, some estr⟩ =
      (.ok ex, ⟨st.store, cacheSet st.cache (cacheKey cid sstr estr) ex⟩, false) := by
  simp [post, hcid, hs, he, hcity, hsd, hed, hord, hcache, hstore]

theorem post_feed_error (env : Env) (st : ServerState) (cid : Nat) (sstr estr : String)
    (city : City) (sd ed : Date) (e : String)
    (hcid : cid ≠ 0) (hs : sstr ≠ "") (he : estr ≠ "")
    (hcity : env.cities.find? (fun c => c.id == cid) = some city)
    (hsd : parse_date sstr = some sd) (hed : parse_date estr = some ed)
    (hord : dateLt ed sd = false)
    (hcache : cacheGet st.cache (cacheKey cid sstr estr) = none)
    (hstore : findResult st.store city.id sd ed = none)
    (hfeed : env.feed = .error e) :
    post env st ⟨some cid, some sstr, some estr⟩ =
      (.badGateway ("Failed to fetch earthquakes: " ++ e), st, true) := by
  simp [post, hcid, hs, he, hcity, hsd, hed, hord, hcache, hstore, hfeed]

theorem post_feed_ok (env : Env) (st : ServerState) (cid : Nat) (sstr estr : String)
    (city : City) (sd ed : Date) (d : EqDict)
    (hcid : cid ≠ 0) (hs : sstr ≠ "") (he : estr ≠ "")
    (hcity : env.cities.find? (fun c => c.id == cid) = some city)
    (hsd : parse_date sstr = some sd) (hed : parse_date estr = some ed)
    (hord : dateLt ed sd = false)
    (hcache : cacheGet st.cache (cacheKey cid sstr estr) = none)
    (hstore : findResult st.store city.id sd ed = none)
    (hfeed : env.feed = .ok d) :
    post env st ⟨some cid, some sstr, some estr⟩ =
      (.created (buildRecord env.geodesic_km city sd ed
          (find_nearest_earthquake city.latitude city.longitude (some d))),
        ⟨st.store ++ [buildRecord env.geodesic_km city sd ed
          (find_nearest_earthquake city.latitude city.longitude (some d))],
         cacheSet st.cache (cacheKey cid sstr estr)
          (buildRecord env.geodesic_km city sd ed
            (find_nearest_earthquake city.latitude city.longitude (some d)))⟩, true) := by
  simp [post, hcid, hs, he, hcity, hsd, hed, hord, hcache, hstore, hfeed]

theorem sin_sq_half_eq (x : ℝ) : Real.sin (x / 2) ^ 2 = (1 - Real.cos x) / 2 := by
  have h := Real.cos_two_mul' (x / 2)
  have h2 : Real.sin (x / 2) ^ 2 + Real.cos (x / 2) ^ 2 = 1 := Real.sin_sq_add_cos_sq _
  have h3 : 2 * (x / 2) = x := by ring
  rw [h3] at h
  linarith

theorem radians_sub (a b : ℝ) : radians (a - b) = radians a - radians b := by
  unfold radians; ring

theorem abs_radians_le_pi_div_two (lat : ℝ) (h : |lat| ≤ 90) :
    |radians lat| ≤ Real.pi / 2 := by
  have hpi : 0 < Real.pi := Real.pi_pos
  have := abs_le.mp h
  rw [abs_le]
  unfold radians
  constructor <;> nlinarith [this.1, this.2]

theorem cos_radians_nonneg (lat : ℝ) (h : |lat| ≤ 90) : 0 ≤ Real.cos (radians lat) := by
  have h2 := abs_le.mp (abs_radians_le_pi_div_two lat h)
  exact Real.cos_nonneg_of_mem_Icc ⟨h2.1, h2.2⟩

theorem haversineA_nonneg (lat1 lon1 lat2 lon2 : ℝ)
    (h1 : |lat1| ≤ 90) (h2 : |lat2| ≤ 90) :
    0 ≤ haversineA lat1 lon1 lat2 lon2 := by
  have hc1 := cos_radians_nonneg lat1 h1
  have hc2 := cos_radians_nonneg lat2 h2
  have hs1 : (0:ℝ) ≤ Real.sin (radians (lat2 - lat1) / 2) ^ 2 := sq_nonneg _
  have hs2 : (0:ℝ) ≤ Real.sin (radians (lon2 - lon1) / 2) ^ 2 := sq_nonneg _
  unfold haversineA
  nlinarith [mul_nonneg (mul_nonneg hc1 hc2) hs2]

theorem haversineA_le_one (lat1 lon1 lat2 lon2 : ℝ)
    (h1 : |lat1| ≤ 90) (h2 : |lat2| ≤ 90) :
    haversineA lat1 lon1 lat2 lon2 ≤ 1 := by
  have hc1 := cos_radians_nonneg lat1 h1
  have hc2 := cos_radians_nonneg lat2 h2
  unfold haversineA
  rw [radians_sub lat2 lat1, sin_sq_half_eq, sin_sq_half_eq,
    Real.cos_sub (radians lat2) (radians lat1)]
  have hadd := Real.cos_add (radians lat1) (radians lat2)
  have h3 : Real.cos (radians lat1 + radians lat2) ≤ 1 := Real.cos_le_one _
  have h4 : -1 ≤ Real.cos (radians (lon2 - lon1)) := Real.neg_one_le_cos _
  nlinarith [mul_nonneg hc1 hc2]

theorem atan2_nonneg (y x : ℝ) (hy : 0 ≤ y) (hx : 0 ≤ x) : 0 ≤ atan2 y x := by
  unfold atan2
  by_cases hx0 : 0 < x
  · rw [if_pos hx0]
    have : Real.arctan 0 ≤ Real.arctan (y / x) :=
      Real.arctan_strictMono.monotone (div_nonneg hy hx)
    rwa [Real.arctan_zero] at this
  · have hxz : x = 0 := le_antisymm (not_lt.mp hx0) hx
    rw [if_neg hx0, if_neg (by simp [hxz]), if_neg (by simp [hxz])]
    by_cases hy0 : 0 < y
    · rw [if_pos ⟨hxz, hy0⟩]
      linarith [Real.pi_pos]
    · rw [if_neg (by exact fun hc => hy0 hc.2)]
      rw [if_neg (by exact fun hc => absurd hc.2 (not_lt.mpr hy))]

theorem calculate_distance_nonneg (lat1 lon1 lat2 lon2 : ℝ) :
    0 ≤ calculate_distance lat1 lon1 lat2 lon2 := by
  have h := atan2_nonneg (Real.sqrt (haversineA lat1 lon1 lat2 lon2))
    (Real.sqrt (1 - haversineA lat1 lon1 lat2 lon2))
    (Real.sqrt_nonneg _) (Real.sqrt_nonneg _)
  show 0 ≤ 6371 * (2 * atan2 (Real.sqrt (haversineA lat1 lon1 lat2 lon2))
    (Real.sqrt (1 - haversineA lat1 lon1 lat2 lon2)))
  nlinarith

theorem haversineA_self (lat lon : ℝ) : haversineA lat lon lat lon = 0 := by
  unfold haversineA
  have h : radians (lat - lat) = 0 := by unfold radians; ring
  have h2 : radians (lon - lon) = 0 := by unfold radians; ring
  rw [h, h2]
  norm_num

theorem calculate_distance_self (lat lon : ℝ) : calculate_distance lat lon lat lon = 0 := by
  unfold calculate_distance
  rw [haversineA_self]
  norm_num [atan2, Real.arctan_zero]

theorem atan2_sqrt_eq (a : ℝ) (h0 : 0 < a) (h1 : a < 1) :
    atan2 (Real.sqrt a) (Real.sqrt (1 - a)) =
      Real.arctan (Real.sqrt a / Real.sqrt (1 - a)) := by
  unfold atan2
  rw [if_pos (Real.sqrt_pos.mpr (by linarith))]

theorem sin_arctan_sqrt (a : ℝ) (h0 : 0 < a) (h1 : a < 1) :
    Real.sin (Real.arctan (Real.sqrt a / Real.sqrt (1 - a))) = Real.sqrt a := by
  rw [Real.sin_arctan]
  have h1a : (0:ℝ) < 1 - a := by linarith
  have hs : Real.sqrt (1 - a) ≠ 0 := ne_of_gt (Real.sqrt_pos.mpr h1a)
  have ht2 : (Real.sqrt a / Real.sqrt (1 - a)) ^ 2 = a / (1 - a) := by
    rw [div_pow, Real.sq_sqrt (le_of_lt h0), Real.sq_sqrt (le_of_lt h1a)]
  rw [ht2]
  have h3 : 1 + a / (1 - a) = 1 / (1 - a) := by field_simp
  rw [h3, one_div, Real.sqrt_inv]
  field_simp

theorem dist_interval (lat1 lon1 lat2 lon2 alo ahi : ℝ)
    (hlo : alo ≤ haversineA lat1 lon1 lat2 lon2)
    (hhi : haversineA lat1 lon1 lat2 lon2 ≤ ahi)
    (h0 : 0 < alo) (h1 : ahi < 1) :
    12742 * Real.sqrt alo ≤ calculate_distance lat1 lon1 lat2 lon2 ∧
      calculate_distance lat1 lon1 lat2 lon2 ≤ 12742 * Real.sqrt (ahi / (1 - ahi)) := by
  have h0a : 0 < haversineA lat1 lon1 lat2 lon2 := lt_of_lt_of_le h0 hlo
  have h1a : haversineA lat1 lon1 lat2 lon2 < 1 := lt_of_le_of_lt hhi h1
  have h1a' : 0 < 1 - haversineA lat1 lon1 lat2 lon2 := by linarith
  have hd : calculate_distance lat1 lon1 lat2 lon2 =
      6371 * (2 * Real.arctan (Real.sqrt (haversineA lat1 lon1 lat2 lon2) /
        Real.sqrt (1 - haversineA lat1 lon1 lat2 lon2))) := by
    show 6371 * (2 * atan2 (Real.sqrt (haversineA lat1 lon1 lat2 lon2))
      (Real.sqrt (1 - haversineA lat1 lon1 lat2 lon2))) = _
    rw [atan2_sqrt_eq _ h0a h1a]
  have htpos : 0 < Real.sqrt (haversineA lat1 lon1 lat2 lon2) /
      Real.sqrt (1 - haversineA lat1 lon1 lat2 lon2) :=
    div_pos (Real.sqrt_pos.mpr h0a) (Real.sqrt_pos.mpr h1a')
  have hθpos : 0 < Real.arctan (Real.sqrt (haversineA lat1 lon1 lat2 lon2) /
      Real.sqrt (1 - haversineA lat1 lon1 lat2 lon2)) := by
    have := Real.arctan_strictMono htpos
    rwa [Real.arctan_zero] at this
  have hθhi := Real.arctan_lt_pi_div_two (Real.sqrt (haversineA lat1 lon1 lat2 lon2) /
      Real.sqrt (1 - haversineA lat1 lon1 lat2 lon2))
  have hlow : Real.sqrt (haversineA lat1 lon1 lat2 lon2) <
      Real.arctan (Real.sqrt (haversineA lat1 lon1 lat2 lon2) /
        Real.sqrt (1 - haversineA lat1 lon1 lat2 lon2)) := by
    have hsl := Real.sin_lt hθpos
    rwa [sin_arctan_sqrt _ h0a h1a] at hsl
  have hup : Real.arctan (Real.sqrt (haversineA lat1 lon1 lat2 lon2) /
      Real.sqrt (1 - haversineA lat1 lon1 lat2 lon2)) <
      Real.sqrt (haversineA lat1 lon1 lat2 lon2) /
        Real.sqrt (1 - haversineA lat1 lon1 lat2 lon2) := by
    have := Real.lt_tan hθpos hθhi
    rwa [Real.tan_arctan] at this
  have ht_eq : Real.sqrt (haversineA lat1 lon1 lat2 lon2) /
      Real.sqrt (1 - haversineA lat1 lon1 lat2 lon2) =
      Real.sqrt (haversineA lat1 lon1 lat2 lon2 / (1 - haversineA lat1 lon1 lat2 lon2)) := by
    rw [Real.sqrt_div (le_of_lt h0a)]
  have hmono : haversineA lat1 lon1 lat2 lon2 / (1 - haversineA lat1 lon1 lat2 lon2) ≤
      ahi / (1 - ahi) := by
    rw [div_le_div_iff₀ h1a' (by linarith)]
    nlinarith
  have hup2 : Real.sqrt (haversineA lat1 lon1 lat2 lon2) /
      Real.sqrt (1 - haversineA lat1 lon1 lat2 lon2) ≤ Real.sqrt (ahi / (1 - ahi)) := by
    rw [ht_eq]
    exact Real.sqrt_le_sqrt hmono
  constructor
  · rw [hd]
    have hs := Real.sqrt_le_sqrt hlo
    nlinarith [hs, hlow]
  · rw [hd]
    nlinarith [hup, hup2]

theorem sin_sq_bounds (x lo hi : ℝ) (hx_lo : lo ≤ x) (hx_hi : x ≤ hi)
    (hlo : 0 < lo) (hhi : hi ≤ 1) (hq : 0 ≤ lo - hi ^ 3 / 4) :
    (lo - hi ^ 3 / 4) ^ 2 ≤ Real.sin x ^ 2 ∧ Real.sin x ^ 2 ≤ hi ^ 2 := by
  have hx0 : 0 < x := lt_of_lt_of_le hlo hx_lo
  have h1 : x ≤ 1 := le_trans hx_hi hhi
  have hs_lo : x - x ^ 3 / 4 < Real.sin x := Real.sin_gt_sub_cube hx0 h1
  have hs_hi : Real.sin x < x := Real.sin_lt hx0
  have hs_nn : 0 ≤ Real.sin x :=
    Real.sin_nonneg_of_nonneg_of_le_pi (le_of_lt hx0)
      (le_trans h1 (by linarith [Real.pi_gt_three]))
  have hcube : x ^ 3 ≤ hi ^ 3 := by
    have := pow_le_pow_left (le_of_lt hx0) hx_hi 3
    exact this
  constructor
  · have hmono : lo - hi ^ 3 / 4 ≤ x - x ^ 3 / 4 := by linarith
    have hle : lo - hi ^ 3 / 4 ≤ Real.sin x := le_trans hmono (le_of_lt hs_lo)
    exact pow_le_pow_left hq hle 2
  · have hxhi : Real.sin x ≤ hi := le_trans (le_of_lt hs_hi) hx_hi
    exact pow_le_pow_left hs_nn hxhi 2

theorem cos_bounds (x lo hi : ℝ) (hx_lo : lo ≤ x) (hx_hi : x ≤ hi)
    (hlo : 0 < lo) (hhi : hi ≤ 2) (hq : 0 ≤ lo / 2 - (hi / 2) ^ 3 / 4) :
    1 - hi ^ 2 / 2 ≤ Real.cos x ∧
      Real.cos x ≤ 1 - 2 * (lo / 2 - (hi / 2) ^ 3 / 4) ^ 2 := by
  have hrep : Real.cos x = 1 - 2 * Real.sin (x / 2) ^ 2 := by
    have h := Real.cos_two_mul' (x / 2)
    have h2 : Real.sin (x / 2) ^ 2 + Real.cos (x / 2) ^ 2 = 1 := Real.sin_sq_add_cos_sq _
    have h3 : 2 * (x / 2) = x := by ring
    rw [h3] at h
    linarith
  have hb := sin_sq_bounds (x / 2) (lo / 2) (hi / 2)
    (by linarith) (by linarith) (by linarith) (by linarith) hq
  constructor
  · rw [hrep]
    have := hb.2
    nlinarith
  · rw [hrep]
    have := hb.1
    nlinarith

set_option maxHeartbeats 2000000 in
theorem haversineA_concrete_bounds :
    (0.147765 * 3.141592 / 360 - (0.147765 * 3.141593 / 360) ^ 3 / 4) ^ 2 +
        (1 - (34.052235 * 3.141593 / 180) ^ 2 / 2) *
          (1 - (34.2 * 3.141593 / 180) ^ 2 / 2) *
          (0.256317 * 3.141592 / 360 - (0.256317 * 3.141593 / 360) ^ 3 / 4) ^ 2 ≤
      haversineA 34.052235 (-118.243683) 34.2 (-118.5) ∧
    haversineA 34.052235 (-118.243683) 34.2 (-118.5) ≤
      (0.147765 * 3.141593 / 360) ^ 2 +
        (1 - 2 * (34.052235 * 3.141592 / 180 / 2 -
          (34.052235 * 3.141593 / 180 / 2) ^ 3 / 4) ^ 2) *
        (1 - 2 * (34.2 * 3.141592 / 180 / 2 -
          (34.2 * 3.141593 / 180 / 2) ^ 3 / 4) ^ 2) *
        (0.256317 * 3.141593 / 360) ^ 2 := by
  have hπl : (3.141592 : ℝ) < Real.pi := Real.pi_gt_d6
  have hπh : Real.pi < 3.141593 := Real.pi_lt_d6
  have hπ0 : (0:ℝ) < Real.pi := Real.pi_pos
  -- the three trigonometric arguments
  have hu : haversineA 34.052235 (-118.243683) 34.2 (-118.5) =
      Real.sin (0.147765 * Real.pi / 360) ^ 2 +
        Real.cos (34.052235 * Real.pi / 180) * Real.cos (34.2 * Real.pi / 180) *
          Real.sin (0.256317 * Real.pi / 360) ^ 2 := by
    unfold haversineA radians
    have e1 : ((34.2 : ℝ) - 34.052235) * Real.pi / 180 / 2 = 0.147765 * Real.pi / 360 := by
      ring_nf
    have e2 : ((-118.5 : ℝ) - -118.243683) * Real.pi / 180 / 2 =
        -(0.256317 * Real.pi / 360) := by
      ring_nf
    rw [e1, e2, Real.sin_neg, neg_sq]
  rw [hu]
  -- interval bounds for each argument
  have hu_lo : (0.147765 : ℝ) * 3.141592 / 360 ≤ 0.147765 * Real.pi / 360 := by nlinarith
  have hu_hi : (0.147765 : ℝ) * Real.pi / 360 ≤ 0.147765 * 3.141593 / 360 := by nlinarith
  have hw_lo : (0.256317 : ℝ) * 3.141592 / 360 ≤ 0.256317 * Real.pi / 360 := by nlinarith
  have hw_hi : (0.256317 : ℝ) * Real.pi / 360 ≤ 0.256317 * 3.141593 / 360 := by nlinarith
  have hp1_lo : (34.052235 : ℝ) * 3.141592 / 180 ≤ 34.052235 * Real.pi / 180 := by nlinarith
  have hp1_hi : (34.052235 : ℝ) * Real.pi / 180 ≤ 34.052235 * 3.141593 / 180 := by nlinarith
  have hp2_lo : (34.2 : ℝ) * 3.141592 / 180 ≤ 34.2 * Real.pi / 180 := by nlinarith
  have hp2_hi : (34.2 : ℝ) * Real.pi / 180 ≤ 34.2 * 3.141593 / 180 := by nlinarith
  have hS1 := sin_sq_bounds (0.147765 * Real.pi / 360)
    (0.147765 * 3.141592 / 360) (0.147765 * 3.141593 / 360)
    hu_lo hu_hi (by norm_num) (by norm_num) (by norm_num)
  have hS2 := sin_sq_bounds (0.256317 * Real.pi / 360)
    (0.256317 * 3.141592 / 360) (0.256317 * 3.141593 / 360)
    hw_lo hw_hi (by norm_num) (by norm_num) (by norm_num)
  have hC1 := cos_bounds (34.052235 * Real.pi / 180)
    (34.052235 * 3.141592 / 180) (34.052235 * 3.141593 / 180)
    hp1_lo hp1_hi (by norm_num) (by norm_num) (by norm_num)
  have hC2 := cos_bounds (34.2 * Real.pi / 180)
    (34.2 * 3.141592 / 180) (34.2 * 3.141593 / 180)
    hp2_lo hp2_hi (by norm_num) (by norm_num) (by norm_num)
  obtain ⟨hS1l, hS1h⟩ := hS1
  obtain ⟨hS2l, hS2h⟩ := hS2
  obtain ⟨hC1l, hC1h⟩ := hC1
  obtain ⟨hC2l, hC2h⟩ := hC2
  have hC1nn : (0:ℝ) ≤ Real.cos (34.052235 * Real.pi / 180) := by nlinarith
  have hC2nn : (0:ℝ) ≤ Real.cos (34.2 * Real.pi / 180) := by nlinarith
  have hS2nn : (0:ℝ) ≤ Real.sin (0.256317 * Real.pi / 360) ^ 2 := sq_nonneg _
  have hC1ln : (0:ℝ) ≤ 1 - (34.052235 * 3.141593 / 180) ^ 2 / 2 := by norm_num
  have hC2ln : (0:ℝ) ≤ 1 - (34.2 * 3.141593 / 180) ^ 2 / 2 := by norm_num
  have hS2ln : (0:ℝ) ≤ (0.256317 * 3.141592 / 360 -
      (0.256317 * 3.141593 / 360) ^ 3 / 4) ^ 2 := sq_nonneg _
  constructor
  · -- lower bound on the product term
    have h12 : (1 - (34.052235 * 3.141593 / 180) ^ 2 / 2) *
        (1 - (34.2 * 3.141593 / 180) ^ 2 / 2) ≤
        Real.cos (34.052235 * Real.pi / 180) * Real.cos (34.2 * Real.pi / 180) :=
      mul_le_mul hC1l hC2l hC2ln hC1nn
    have h123 : (1 - (34.052235 * 3.141593 / 180) ^ 2 / 2) *
        (1 - (34.2 * 3.141593 / 180) ^ 2 / 2) *
        (0.256317 * 3.141592 / 360 - (0.256317 * 3.141593 / 360) ^ 3 / 4) ^ 2 ≤
        Real.cos (34.052235 * Real.pi / 180) * Real.cos (34.2 * Real.pi / 180) *
          Real.sin (0.256317 * Real.pi / 360) ^ 2 :=
      mul_le_mul h12 hS2l hS2ln (mul_nonneg hC1nn hC2nn)
    linarith
  · -- upper bound on the product term
    have hC1hn : (0:ℝ) ≤ 1 - 2 * (34.052235 * 3.141592 / 180 / 2 -
        (34.052235 * 3.141593 / 180 / 2) ^ 3 / 4) ^ 2 := by norm_num
    have h12 : Real.cos (34.052235 * Real.pi / 180) * Real.cos (34.2 * Real.pi / 180) ≤
        (1 - 2 * (34.052235 * 3.141592 / 180 / 2 -
          (34.052235 * 3.141593 / 180 / 2) ^ 3 / 4) ^ 2) *
        (1 - 2 * (34.2 * 3.141592 / 180 / 2 -
          (34.2 * 3.141593 / 180 / 2) ^ 3 / 4) ^ 2) :=
      mul_le_mul hC1h hC2h hC2nn hC1hn
    have h123 : Real.cos (34.052235 * Real.pi / 180) * Real.cos (34.2 * Real.pi / 180) *
        Real.sin (0.256317 * Real.pi / 360) ^ 2 ≤
        (1 - 2 * (34.052235 * 3.141592 / 180 / 2 -
          (34.052235 * 3.141593 / 180 / 2) ^ 3 / 4) ^ 2) *
        (1 - 2 * (34.2 * 3.141592 / 180 / 2 -
          (34.2 * 3.141593 / 180 / 2) ^ 3 / 4) ^ 2) *
        (0.256317 * 3.141593 / 360) ^ 2 :=
      mul_le_mul h12 hS2h hS2nn (by nlinarith [mul_nonneg hC1hn (by norm_num :
        (0:ℝ) ≤ 1 - 2 * (34.2 * 3.141592 / 180 / 2 -
          (34.2 * 3.141593 / 180 / 2) ^ 3 / 4) ^ 2)])
    linarith

set_option maxHeartbeats 2000000 in
theorem calculate_distance_concrete :
    28 < calculate_distance 34.052235 (-118.243683) 34.2 (-118.5) ∧
      calculate_distance 34.052235 (-118.243683) 34.2 (-118.5) < 29 := by
  obtain ⟨hlo, hhi⟩ := haversineA_concrete_bounds
  have h := dist_interval 34.052235 (-118.243683) 34.2 (-118.5)
    ((0.147765 * 3.141592 / 360 - (0.147765 * 3.141593 / 360) ^ 3 / 4) ^ 2 +
      (1 - (34.052235 * 3.141593 / 180) ^ 2 / 2) *
        (1 - (34.2 * 3.141593 / 180) ^ 2 / 2) *
        (0.256317 * 3.141592 / 360 - (0.256317 * 3.141593 / 360) ^ 3 / 4) ^ 2)
    ((0.147765 * 3.141593 / 360) ^ 2 +
      (1 - 2 * (34.052235 * 3.141592 / 180 / 2 -
        (34.052235 * 3.141593 / 180 / 2) ^ 3 / 4) ^ 2) *
      (1 - 2 * (34.2 * 3.141592 / 180 / 2 -
        (34.2 * 3.141593 / 180 / 2) ^ 3 / 4) ^ 2) *
      (0.256317 * 3.141593 / 360) ^ 2)
    hlo hhi (by norm_num) (by norm_num)
  obtain ⟨hL, hH⟩ := h
  constructor
  · have hsq : ((28:ℝ) / 12742) ^ 2 <
        (0.147765 * 3.141592 / 360 - (0.147765 * 3.141593 / 360) ^ 3 / 4) ^ 2 +
          (1 - (34.052235 * 3.141593 / 180) ^ 2 / 2) *
            (1 - (34.2 * 3.141593 / 180) ^ 2 / 2) *
            (0.256317 * 3.141592 / 360 - (0.256317 * 3.141593 / 360) ^ 3 / 4) ^ 2 := by
      norm_num
    have := (Real.lt_sqrt (by norm_num : (0:ℝ) ≤ 28 / 12742)).mpr hsq
    nlinarith
  · have hsq : ((0.147765 * 3.141593 / 360) ^ 2 +
        (1 - 2 * (34.052235 * 3.141592 / 180 / 2 -
          (34.052235 * 3.141593 / 180 / 2) ^ 3 / 4) ^ 2) *
        (1 - 2 * (34.2 * 3.141592 / 180 / 2 -
          (34.2 * 3.141593 / 180 / 2) ^ 3 / 4) ^ 2) *
        (0.256317 * 3.141593 / 360) ^ 2) /
        (1 - ((0.147765 * 3.141593 / 360) ^ 2 +
        (1 - 2 * (34.052235 * 3.141592 / 180 / 2 -
          (34.052235 * 3.141593 / 180 / 2) ^ 3 / 4) ^ 2) *
        (1 - 2 * (34.2 * 3.141592 / 180 / 2 -
          (34.2 * 3.141593 / 180 / 2) ^ 3 / 4) ^ 2) *
        (0.256317 * 3.141593 / 360) ^ 2)) < ((29:ℝ) / 12742) ^ 2 := by
      norm_num
    have := (Real.sqrt_lt' (by norm_num : (0:ℝ) < 29 / 12742)).mpr hsq
    nlinarith

theorem find_nearest_none_arg (clat clon : ℝ) :
    find_nearest_earthquake clat clon none = none := rfl

theorem find_nearest_empty_dict (clat clon : ℝ) :
    find_nearest_earthquake clat clon (some []) = none := rfl

theorem find_nearest_no_key (clat clon : ℝ) (d : EqDict)
    (hlk : lookupKey d "features" = none) :
    find_nearest_earthquake clat clon (some d) = none := by
  cases d with
  | nil => rfl
  | cons p ps =>
    have hde : ((p :: ps : EqDict)).isEmpty = false := rfl
    simp [find_nearest_earthquake, hde, hlk]

theorem find_nearest_empty_features (clat clon : ℝ) (d : EqDict)
    (hfeat : lookupKey d "features" = some []) :
    find_nearest_earthquake clat clon (some d) = none := by
  cases d with
  | nil => simp [lookupKey] at hfeat
  | cons p ps =>
    have hde : ((p :: ps : EqDict)).isEmpty = false := rfl
    simp [find_nearest_earthquake, hde, hfeat]

theorem utc_mock_quake :
    utcFromTimestamp ((1625053800000 : ℚ) / 1000) = ⟨2021, 6, 30, 11, 50, 0⟩ := by
  have h : (⌊(1625053800000 : ℚ) / 1000⌋ : ℤ) = 1625053800 := by norm_num
  unfold utcFromTimestamp civilFromDays
  rw [h]
  decide

theorem calculate_distance_zero_ninety :
    calculate_distance 0 0 0 90 = 6371 * (Real.pi / 2) := by
  have ha : haversineA 0 0 0 90 = 1 / 2 := by
    unfold haversineA radians
    have e : (90 : ℝ) * Real.pi / 180 / 2 = Real.pi / 4 := by ring
    norm_num
    rw [e, Real.sin_pi_div_four]
    rw [div_pow, Real.sq_sqrt (by norm_num : (0:ℝ) ≤ 2)]
    norm_num
  show 6371 * (2 * atan2 (Real.sqrt (haversineA 0 0 0 90))
    (Real.sqrt (1 - haversineA 0 0 0 90))) = _
  rw [ha]
  have h12 : (1 : ℝ) - 1 / 2 = 1 / 2 := by norm_num
  rw [h12]
  have hpos : 0 < Real.sqrt (1 / 2) := Real.sqrt_pos.mpr (by norm_num)
  unfold atan2
  rw [if_pos hpos, div_self (ne_of_gt hpos), Real.arctan_one]
  ring

/-- C3: find_nearest_earthquake returns absent on an empty candidate sequence and
otherwise returns the candidate minimizing the haversine distance to the origin,
ties broken in favor of the first candidate in input order (order-preserving
scan with a strictly-less-than comparison against the running minimum). -/
theorem claim_C3 (clat clon : ℝ) (d : EqDict) (fs : List Feature)
    (hk : lookupKey d "features" = some fs) :
    (fs = [] → find_nearest_earthquake clat clon (some d) = none) ∧
    (fs ≠ [] → ∃ i : ℕ, ∃ hi : i < fs.length,
      find_nearest_earthquake clat clon (some d) = some (fs.get ⟨i, hi⟩) ∧
      (∀ j : ℕ, ∀ hj : j < fs.length,
        featureDist clat clon (fs.get ⟨i, hi⟩) ≤ featureDist clat clon (fs.get ⟨j, hj⟩)) ∧
      ∀ j : ℕ, ∀ hj : j < fs.length, j < i →
        featureDist clat clon (fs.get ⟨i, hi⟩) < featureDist clat clon (fs.get ⟨j, hj⟩)) := by
  constructor
  · intro hfs
    subst hfs
    exact find_nearest_empty_features clat clon d hk
  · intro hne
    obtain ⟨f, fs', rfl⟩ : ∃ f fs', fs = f :: fs' := by
      cases fs with
      | nil => exact absurd rfl hne
      | cons f fs' => exact ⟨f, fs', rfl⟩
    rw [find_nearest_eq_pick clat clon d f fs' hk]
    obtain ⟨i, hi, hpk, hmin, htie⟩ := pickNearest_spec (featureDist clat clon) f fs'
    exact ⟨i, hi, by rw [hpk], hmin, htie⟩

theorem claim_C3_witness :
    find_nearest_earthquake 0 0 (some [("features", ([] : List Feature))]) = none :=
  (claim_C3 0 0 [("features", [])] [] rfl).1 rfl

/-- C7 counterexample: two requests with the same city identifier whose date
strings parse to the same calendar dates nevertheless produce different cache
keys, because the key is built from the raw request strings. -/
theorem claim_C7_counterexample :
    parse_date "2021-06-01" = parse_date "2021-6-1" ∧
    cacheKey 7 "2021-06-01" "2021-07-05" ≠ cacheKey 7 "2021-6-1" "2021-07-05" := by
  constructor
  · decide
  · decide

/-- C7 amended: the cache key is the string earthquake:<city_id>:<start>:<end>
built from the city identifier and the two RAW request strings, so it is a
function of those three values (equal raw inputs give equal keys), not of the
parsed ISO dates. -/
theorem claim_C7 (cid : Nat) (s1 e1 s2 e2 : String) (hs : s1 = s2) (he : e1 = e2) :
    cacheKey cid s1 e1 = cacheKey cid s2 e2 ∧
    cacheKey cid s1 e1 = "earthquake:" ++ toString cid ++ ":" ++ s1 ++ ":" ++ e1 := by
  subst hs he
  exact ⟨rfl, rfl⟩

theorem claim_C7_witness :
    cacheKey 1 "2021-06-01" "2021-07-05" = cacheKey 1 "2021-06-01" "2021-07-05" ∧
    cacheKey 1 "2021-06-01" "2021-07-05" =
      "earthquake:" ++ toString 1 ++ ":" ++ "2021-06-01" ++ ":" ++ "2021-07-05" :=
  claim_C7 1 "2021-06-01" "2021-07-05" "2021-06-01" "2021-07-05" rfl rfl

/-- C8: a feed feature whose coordinates triple is [lon, lat, depth] is read
with latitude = coordinates[1] and longitude = coordinates[0], both in the
selection distance of find_nearest_earthquake and in the distance_km recorded
on the persisted record. -/
theorem claim_C8 (clat clon lon lat dep : ℝ) (geo : ℝ → ℝ → ℝ → ℝ → ℝ)
    (city : City) (sd ed : Date) (f : Feature)
    (hc : f.geometry.coordinates = [lon, lat, dep]) :
    featureDist clat clon f = calculate_distance clat clon lat lon ∧
    (buildRecord geo city sd ed (some f)).distance_km =
      some (geo city.latitude city.longitude lat lon) := by
  constructor
  · unfold featureDist
    rw [hc]
    rfl
  · simp only [buildRecord, hc]
    rfl

theorem claim_C8_witness :
    featureDist 1 2 ⟨⟨[4, 3, 5]⟩, ⟨6, "w", 0⟩⟩ = calculate_distance 1 2 3 4 ∧
    (buildRecord (fun _ _ _ _ => 9) ⟨1, "c", 7, 8⟩ ⟨2021, 1, 1⟩ ⟨2021, 1, 2⟩
      (some ⟨⟨[4, 3, 5]⟩, ⟨6, "w", 0⟩⟩)).distance_km = some 9 :=
  claim_C8 1 2 4 3 5 (fun _ _ _ _ => 9) ⟨1, "c", 7, 8⟩ ⟨2021, 1, 1⟩ ⟨2021, 1, 2⟩
    ⟨⟨[4, 3, 5]⟩, ⟨6, "w", 0⟩⟩ rfl

/-- C10: find_nearest_earthquake returns absent, rather than raising, when the
earthquakes argument is None, an empty dict, or a dict lacking the "features"
key; at the orchestrator level such a payload is persisted and cached exactly
like a valid empty result. -/
theorem claim_C10 (clat clon : ℝ) (d : EqDict)
    (env : Env) (st : ServerState) (cid : Nat) (sstr estr : String)
    (city : City) (sd ed : Date)
    (hlk : lookupKey d "features" = none)
    (hcid : cid ≠ 0) (hs : sstr ≠ "") (he : estr ≠ "")
    (hcity : env.cities.find? (fun c => c.id == cid) = some city)
    (hsd : parse_date sstr = some sd) (hed : parse_date estr = some ed)
    (hord : dateLt ed sd = false)
    (hcache : cacheGet st.cache (cacheKey cid sstr estr) = none)
    (hstore : findResult st.store city.id sd ed = none)
    (hfeed : env.feed = .ok d) :
    find_nearest_earthquake clat clon none = none ∧
    find_nearest_earthquake clat clon (some []) = none ∧
    find_nearest_earthquake clat clon (some d) = none ∧
    post env st ⟨some cid, some sstr, some estr⟩ =
      (.created (buildRecord env.geodesic_km city sd ed none),
        ⟨st.store ++ [buildRecord env.geodesic_km city sd ed none],
          cacheSet st.cache (cacheKey cid sstr estr)
            (buildRecord env.geodesic_km city sd ed none)⟩, true) ∧
    (buildRecord env.geodesic_km city sd ed none).nearest_earthquake_location = none ∧
    (buildRecord env.geodesic_km city sd ed none).nearest_earthquake_magnitude = none ∧
    (buildRecord env.geodesic_km city sd ed none).nearest_earthquake_time = none ∧
    (buildRecord env.geodesic_km city sd ed none).distance_km = none := by
  have hn : find_nearest_earthquake city.latitude city.longitude (some d) = none :=
    find_nearest_no_key _ _ d hlk
  refine ⟨rfl, rfl, find_nearest_no_key clat clon d hlk, ?_, rfl, rfl, rfl, rfl⟩
  have h := post_feed_ok env st cid sstr estr city sd ed d
    hcid hs he hcity hsd hed hord hcache hstore hfeed
  rw [hn] at h
  exact h

/-- C9: calculate_distance is total on valid coordinates: the haversine
intermediate a lies in [0, 1] (so the argument of sqrt(1 - a) is nonnegative),
the distance is nonnegative, and identical points give distance 0. -/
theorem claim_C9 (lat1 lon1 lat2 lon2 : ℝ)
    (h1 : |lat1| ≤ 90) (h2 : |lat2| ≤ 90) (h3 : |lon1| ≤ 180) (h4 : |lon2| ≤ 180) :
    0 ≤ haversineA lat1 lon1 lat2 lon2 ∧
    haversineA lat1 lon1 lat2 lon2 ≤ 1 ∧
    0 ≤ 1 - haversineA lat1 lon1 lat2 lon2 ∧
    0 ≤ calculate_distance lat1 lon1 lat2 lon2 ∧
    calculate_distance lat1 lon1 lat1 lon1 = 0 := by
  refine ⟨haversineA_nonneg lat1 lon1 lat2 lon2 h1 h2,
    haversineA_le_one lat1 lon1 lat2 lon2 h1 h2, ?_,
    calculate_distance_nonneg lat1 lon1 lat2 lon2,
    calculate_distance_self lat1 lon1⟩
  linarith [haversineA_le_one lat1 lon1 lat2 lon2 h1 h2]

theorem claim_C9_witness :
    0 ≤ haversineA 0 0 0 0 ∧ haversineA 0 0 0 0 ≤ 1 ∧
    0 ≤ 1 - haversineA 0 0 0 0 ∧ 0 ≤ calculate_distance 0 0 0 0 ∧
    calculate_distance 0 0 0 0 = 0 :=
  claim_C9 0 0 0 0 (by simp) (by simp) (by simp) (by simp)

/-- C2: a second POST with the identical (city_id, start, end) triple is
answered from the cache or store with the very record created by the first
call (hence identical nearest-event and distance content) and performs no
feed fetch. -/
theorem claim_C2 (env : Env) (st : ServerState) (cid : Nat) (sstr estr : String)
    (city : City) (sd ed : Date) (d : EqDict)
    (hcid : cid ≠ 0) (hs : sstr ≠ "") (he : estr ≠ "")
    (hcity : env.cities.find? (fun c => c.id == cid) = some city)
    (hsd : parse_date sstr = some sd) (hed : parse_date estr = some ed)
    (hord : dateLt ed sd = false)
    (hcache : cacheGet st.cache (cacheKey cid sstr estr) = none)
    (hstore : findResult st.store city.id sd ed = none)
    (hfeed : env.feed = .ok d) :
    post env st ⟨some cid, some sstr, some estr⟩ =
      (.created (buildRecord env.geodesic_km city sd ed
          (find_nearest_earthquake city.latitude city.longitude (some d))),
        ⟨st.store ++ [buildRecord env.geodesic_km city sd ed
            (find_nearest_earthquake city.latitude city.longitude (some d))],
          cacheSet st.cache (cacheKey cid sstr estr)
            (buildRecord env.geodesic_km city sd ed
              (find_nearest_earthquake city.latitude city.longitude (some d)))⟩, true) ∧
    post env
      ⟨st.store ++ [buildRecord env.geodesic_km city sd ed
          (find_nearest_earthquake city.latitude city.longitude (some d))],
        cacheSet st.cache (cacheKey cid sstr estr)
          (buildRecord env.geodesic_km city sd ed
            (find_nearest_earthquake city.latitude city.longitude (some d)))⟩
      ⟨some cid, some sstr, some estr⟩ =
      (.ok (buildRecord env.geodesic_km city sd ed
          (find_nearest_earthquake city.latitude city.longitude (some d))),
        ⟨st.store ++ [buildRecord env.geodesic_km city sd ed
            (find_nearest_earthquake city.latitude city.longitude (some d))],
          cacheSet st.cache (cacheKey cid sstr estr)
            (buildRecord env.geodesic_km city sd ed
              (find_nearest_earthquake city.latitude city.longitude (some d)))⟩, false) := by
  constructor
  · exact post_feed_ok env st cid sstr estr city sd ed d
      hcid hs he hcity hsd hed hord hcache hstore hfeed
  · exact post_cache_hit env _ cid sstr estr city sd ed _
      hcid hs he hcity hsd hed hord
      (cacheGet_cacheSet_same st.cache (cacheKey cid sstr estr) _)

theorem claim_C2_witness :
    post ⟨[⟨1, "c", 0, 0⟩], .ok [("features", [⟨⟨[90, 0, 10]⟩, ⟨5.7, "Q", 0⟩⟩])],
        fun _ _ _ _ => 0⟩ ⟨[], []⟩ ⟨some 1, some "2021-06-01", some "2021-07-05"⟩ =
      (.created (buildRecord (fun _ _ _ _ => 0) ⟨1, "c", 0, 0⟩ ⟨2021, 6, 1⟩ ⟨2021, 7, 5⟩
          (find_nearest_earthquake 0 0 (some [("features", [⟨⟨[90, 0, 10]⟩, ⟨5.7, "Q", 0⟩⟩])]))),
        ⟨[buildRecord (fun _ _ _ _ => 0) ⟨1, "c", 0, 0⟩ ⟨2021, 6, 1⟩ ⟨2021, 7, 5⟩
            (find_nearest_earthquake 0 0 (some [("features", [⟨⟨[90, 0, 10]⟩, ⟨5.7, "Q", 0⟩⟩])]))],
          cacheSet [] (cacheKey 1 "2021-06-01" "2021-07-05")
            (buildRecord (fun _ _ _ _ => 0) ⟨1, "c", 0, 0⟩ ⟨2021, 6, 1⟩ ⟨2021, 7, 5⟩
              (find_nearest_earthquake 0 0
                (some [("features", [⟨⟨[90, 0, 10]⟩, ⟨5.7, "Q", 0⟩⟩])])))⟩, true) ∧
    post ⟨[⟨1, "c", 0, 0⟩], .ok [("features", [⟨⟨[90, 0, 10]⟩, ⟨5.7, "Q", 0⟩⟩])],
        fun _ _ _ _ => 0⟩
      ⟨[buildRecord (fun _ _ _ _ => 0) ⟨1, "c", 0, 0⟩ ⟨2021, 6, 1⟩ ⟨2021, 7, 5⟩
          (find_nearest_earthquake 0 0 (some [("features", [⟨⟨[90, 0, 10]⟩, ⟨5.7, "Q", 0⟩⟩])]))],
        cacheSet [] (cacheKey 1 "2021-06-01" "2021-07-05")
          (buildRecord (fun _ _ _ _ => 0) ⟨1, "c", 0, 0⟩ ⟨2021, 6, 1⟩ ⟨2021, 7, 5⟩
            (find_nearest_earthquake 0 0
              (some [("features", [⟨⟨[90, 0, 10]⟩, ⟨5.7, "Q", 0⟩⟩])])))⟩
      ⟨some 1, some "2021-06-01", some "2021-07-05"⟩ =
      (.ok (buildRecord (fun _ _ _ _ => 0) ⟨1, "c", 0, 0⟩ ⟨2021, 6, 1⟩ ⟨2021, 7, 5⟩
          (find_nearest_earthquake 0 0 (some [("features", [⟨⟨[90, 0, 10]⟩, ⟨5.7, "Q", 0⟩⟩])]))),
        ⟨[buildRecord (fun _ _ _ _ => 0) ⟨1, "c", 0, 0⟩ ⟨2021, 6, 1⟩ ⟨2021, 7, 5⟩
            (find_nearest_earthquake 0 0 (some [("features", [⟨⟨[90, 0, 10]⟩, ⟨5.7, "Q", 0⟩⟩])]))],
          cacheSet [] (cacheKey 1 "2021-06-01" "2021-07-05")
            (buildRecord (fun _ _ _ _ => 0) ⟨1, "c", 0, 0⟩ ⟨2021, 6, 1⟩ ⟨2021, 7, 5⟩
              (find_nearest_earthquake 0 0
                (some [("features", [⟨⟨[90, 0, 10]⟩, ⟨5.7, "Q", 0⟩⟩])])))⟩, false) :=
  claim_C2 ⟨[⟨1, "c", 0, 0⟩], .ok [("features", [⟨⟨[90, 0, 10]⟩, ⟨5.7, "Q", 0⟩⟩])],
      fun _ _ _ _ => 0⟩ ⟨[], []⟩ 1 "2021-06-01" "2021-07-05"
    ⟨1, "c", 0, 0⟩ ⟨2021, 6, 1⟩ ⟨2021, 7, 5⟩ [("features", [⟨⟨[90, 0, 10]⟩, ⟨5.7, "Q", 0⟩⟩])]
    (by decide) (by decide) (by decide) rfl (by decide) (by decide) (by decide) rfl rfl rfl

/-- C4: when the feed fetch fails, post answers with the 502 bad-gateway error,
leaves the store and cache untouched (no half-written record), and an identical
later query with a working feed performs the fetch again. -/
theorem claim_C4 (env : Env) (st : ServerState) (cid : Nat) (sstr estr : String)
    (city : City) (sd ed : Date) (e : String)
    (hcid : cid ≠ 0) (hs : sstr ≠ "") (he : estr ≠ "")
    (hcity : env.cities.find? (fun c => c.id == cid) = some city)
    (hsd : parse_date sstr = some sd) (hed : parse_date estr = some ed)
    (hord : dateLt ed sd = false)
    (hcache : cacheGet st.cache (cacheKey cid sstr estr) = none)
    (hstore : findResult st.store city.id sd ed = none)
    (hfeed : env.feed = .error e) :
    post env st ⟨some cid, some sstr, some estr⟩ =
      (.badGateway ("Failed to fetch earthquakes: " ++ e), st, true) ∧
    ∀ d : EqDict,
      (post { env with feed := .ok d } st ⟨some cid, some sstr, some estr⟩).2.2 = true := by
  constructor
  · exact post_feed_error env st cid sstr estr city sd ed e
      hcid hs he hcity hsd hed hord hcache hstore hfeed
  · intro d
    rw [post_feed_ok { env with feed := .ok d } st cid sstr estr city sd ed d
      hcid hs he hcity hsd hed hord hcache hstore rfl]

theorem claim_C4_witness :
    post ⟨[⟨1, "c", 0, 0⟩], .error "boom", fun _ _ _ _ => 0⟩ ⟨[], []⟩
        ⟨some 1, some "2021-06-01", some "2021-07-05"⟩ =
      (.badGateway ("Failed to fetch earthquakes: " ++ "boom"), ⟨[], []⟩, true) ∧
    ∀ d : EqDict,
      (post { Env.mk [⟨1, "c", 0, 0⟩] (.error "boom") (fun _ _ _ _ => 0) with feed := .ok d }
        ⟨[], []⟩ ⟨some 1, some "2021-06-01", some "2021-07-05"⟩).2.2 = true :=
  claim_C4 ⟨[⟨1, "c", 0, 0⟩], .error "boom", fun _ _ _ _ => 0⟩ ⟨[], []⟩
    1 "2021-06-01" "2021-07-05" ⟨1, "c", 0, 0⟩ ⟨2021, 6, 1⟩ ⟨2021, 7, 5⟩ "boom"
    (by decide) (by decide) (by decide) rfl (by decide) (by decide) (by decide) rfl rfl rfl

/-- C5: a feed response with an empty candidate list is a success: post
persists a record whose nearest-event fields and distance are all absent,
writes it to the cache, and a later identical query is served from that
cache entry without a new fetch. -/
theorem claim_C5 (env : Env) (st : ServerState) (cid : Nat) (sstr estr : String)
    (city : City) (sd ed : Date) (d : EqDict)
    (hcid : cid ≠ 0) (hs : sstr ≠ "") (he : estr ≠ "")
    (hcity : env.cities.find? (fun c => c.id == cid) = some city)
    (hsd : parse_date sstr = some sd) (hed : parse_date estr = some ed)
    (hord : dateLt ed sd = false)
    (hcache : cacheGet st.cache (cacheKey cid sstr estr) = none)
    (hstore : findResult st.store city.id sd ed = none)
    (hfeed : env.feed = .ok d)
    (hfeat : lookupKey d "features" = some []) :
    post env st ⟨some cid, some sstr, some estr⟩ =
      (.created (buildRecord env.geodesic_km city sd ed none),
        ⟨st.store ++ [buildRecord env.geodesic_km city sd ed none],
          cacheSet st.cache (cacheKey cid sstr estr)
            (buildRecord env.geodesic_km city sd ed none)⟩, true) ∧
    (buildRecord env.geodesic_km city sd ed none).nearest_earthquake_location = none ∧
    (buildRecord env.geodesic_km city sd ed none).nearest_earthquake_magnitude = none ∧
    (buildRecord env.geodesic_km city sd ed none).nearest_earthquake_time = none ∧
    (buildRecord env.geodesic_km city sd ed none).distance_km = none ∧
    post env
      ⟨st.store ++ [buildRecord env.geodesic_km city sd ed none],
        cacheSet st.cache (cacheKey cid sstr estr)
          (buildRecord env.geodesic_km city sd ed none)⟩
      ⟨some cid, some sstr, some estr⟩ =
      (.ok (buildRecord env.geodesic_km city sd ed none),
        ⟨st.store ++ [buildRecord env.geodesic_km city sd ed none],
          cacheSet st.cache (cacheKey cid sstr estr)
            (buildRecord env.geodesic_km city sd ed none)⟩, false) := by
  have h := post_feed_ok env st cid sstr estr city sd ed d
    hcid hs he hcity hsd hed hord hcache hstore hfeed
  rw [find_nearest_empty_features city.latitude city.longitude d hfeat] at h
  refine ⟨h, rfl, rfl, rfl, rfl, ?_⟩
  exact post_cache_hit env _ cid sstr estr city sd ed _
    hcid hs he hcity hsd hed hord
    (cacheGet_cacheSet_same st.cache (cacheKey cid sstr estr) _)

theorem claim_C5_witness :
    post ⟨[⟨1, "c", 0, 0⟩], .ok [("features", [])], fun _ _ _ _ => 0⟩ ⟨[], []⟩
        ⟨some 1, some "2021-06-01", some "2021-07-05"⟩ =
      (.created (buildRecord (fun _ _ _ _ => 0) ⟨1, "c", 0, 0⟩ ⟨2021, 6, 1⟩ ⟨2021, 7, 5⟩ none),
        ⟨[buildRecord (fun _ _ _ _ => 0) ⟨1, "c", 0, 0⟩ ⟨2021, 6, 1⟩ ⟨2021, 7, 5⟩ none],
          cacheSet [] (cacheKey 1 "2021-06-01" "2021-07-05")
            (buildRecord (fun _ _ _ _ => 0) ⟨1, "c", 0, 0⟩ ⟨2021, 6, 1⟩ ⟨2021, 7, 5⟩ none)⟩,
        true) ∧
    (buildRecord (fun _ _ _ _ => (0:ℝ)) ⟨1, "c", 0, 0⟩ ⟨2021, 6, 1⟩ ⟨2021, 7, 5⟩
      none).nearest_earthquake_location = none ∧
    (buildRecord (fun _ _ _ _ => (0:ℝ)) ⟨1, "c", 0, 0⟩ ⟨2021, 6, 1⟩ ⟨2021, 7, 5⟩
      none).nearest_earthquake_magnitude = none ∧
    (buildRecord (fun _ _ _ _ => (0:ℝ)) ⟨1, "c", 0, 0⟩ ⟨2021, 6, 1⟩ ⟨2021, 7, 5⟩
      none).nearest_earthquake_time = none ∧
    (buildRecord (fun _ _ _ _ => (0:ℝ)) ⟨1, "c", 0, 0⟩ ⟨2021, 6, 1⟩ ⟨2021, 7, 5⟩
      none).distance_km = none ∧
    post ⟨[⟨1, "c", 0, 0⟩], .ok [("features", [])], fun _ _ _ _ => 0⟩
      ⟨[buildRecord (fun _ _ _ _ => 0) ⟨1, "c", 0, 0⟩ ⟨2021, 6, 1⟩ ⟨2021, 7, 5⟩ none],
        cacheSet [] (cacheKey 1 "2021-06-01" "2021-07-05")
          (buildRecord (fun _ _ _ _ => 0) ⟨1, "c", 0, 0⟩ ⟨2021, 6, 1⟩ ⟨2021, 7, 5⟩ none)⟩
      ⟨some 1, some "2021-06-01", some "2021-07-05"⟩ =
      (.ok (buildRecord (fun _ _ _ _ => 0) ⟨1, "c", 0, 0⟩ ⟨2021, 6, 1⟩ ⟨2021, 7, 5⟩ none),
        ⟨[buildRecord (fun _ _ _ _ => 0) ⟨1, "c", 0, 0⟩ ⟨2021, 6, 1⟩ ⟨2021, 7, 5⟩ none],
          cacheSet [] (cacheKey 1 "2021-06-01" "2021-07-05")
            (buildRecord (fun _ _ _ _ => 0) ⟨1, "c", 0, 0⟩ ⟨2021, 6, 1⟩ ⟨2021, 7, 5⟩ none)⟩,
        false) :=
  claim_C5 ⟨[⟨1, "c", 0, 0⟩], .ok [("features", [])], fun _ _ _ _ => 0⟩ ⟨[], []⟩
    1 "2021-06-01" "2021-07-05" ⟨1, "c", 0, 0⟩ ⟨2021, 6, 1⟩ ⟨2021, 7, 5⟩ [("features", [])]
    (by decide) (by decide) (by decide) rfl (by decide) (by decide) (by decide) rfl rfl rfl rfl

theorem claim_C10_witness :
    find_nearest_earthquake 0 0 none = none ∧
    find_nearest_earthquake 0 0 (some []) = none ∧
    find_nearest_earthquake 0 0 (some [("metadata", [])]) = none ∧
    post ⟨[⟨1, "c", 0, 0⟩], .ok [("metadata", [])], fun _ _ _ _ => 0⟩ ⟨[], []⟩
        ⟨some 1, some "2021-06-01", some "2021-07-05"⟩ =
      (.created (buildRecord (fun _ _ _ _ => 0) ⟨1, "c", 0, 0⟩ ⟨2021, 6, 1⟩ ⟨2021, 7, 5⟩ none),
        ⟨[buildRecord (fun _ _ _ _ => 0) ⟨1, "c", 0, 0⟩ ⟨2021, 6, 1⟩ ⟨2021, 7, 5⟩ none],
          cacheSet [] (cacheKey 1 "2021-06-01" "2021-07-05")
            (buildRecord (fun _ _ _ _ => 0) ⟨1, "c", 0, 0⟩ ⟨2021, 6, 1⟩ ⟨2021, 7, 5⟩ none)⟩,
        true) ∧
    (buildRecord (fun _ _ _ _ => (0:ℝ)) ⟨1, "c", 0, 0⟩ ⟨2021, 6, 1⟩ ⟨2021, 7, 5⟩
      none).nearest_earthquake_location = none ∧
    (buildRecord (fun _ _ _ _ => (0:ℝ)) ⟨1, "c", 0, 0⟩ ⟨2021, 6, 1⟩ ⟨2021, 7, 5⟩
      none).nearest_earthquake_magnitude = none ∧
    (buildRecord (fun _ _ _ _ => (0:ℝ)) ⟨1, "c", 0, 0⟩ ⟨2021, 6, 1⟩ ⟨2021, 7, 5⟩
      none).nearest_earthquake_time = none ∧
    (buildRecord (fun _ _ _ _ => (0:ℝ)) ⟨1, "c", 0, 0⟩ ⟨2021, 6, 1⟩ ⟨2021, 7, 5⟩
      none).distance_km = none :=
  claim_C10 0 0 [("metadata", [])]
    ⟨[⟨1, "c", 0, 0⟩], .ok [("metadata", [])], fun _ _ _ _ => 0⟩ ⟨[], []⟩
    1 "2021-06-01" "2021-07-05" ⟨1, "c", 0, 0⟩ ⟨2021, 6, 1⟩ ⟨2021, 7, 5⟩
    rfl (by decide) (by decide) (by decide) rfl (by decide) (by decide) (by decide) rfl rfl rfl

/-- C1 amended: when a nearest event was selected, the persisted distance_km
is the geopy geodesic distance (an external WGS84 ellipsoid metric, modelled
as the environment parameter geodesic_km) between the city coordinate and the
selected event coordinate - not the haversine calculate_distance used for
selection. -/
theorem claim_C1 (env : Env) (st : ServerState) (cid : Nat) (sstr estr : String)
    (city : City) (sd ed : Date) (d : EqDict) (f : Feature)
    (hcid : cid ≠ 0) (hs : sstr ≠ "") (he : estr ≠ "")
    (hcity : env.cities.find? (fun c => c.id == cid) = some city)
    (hsd : parse_date sstr = some sd) (hed : parse_date estr = some ed)
    (hord : dateLt ed sd = false)
    (hcache : cacheGet st.cache (cacheKey cid sstr estr) = none)
    (hstore : findResult st.store city.id sd ed = none)
    (hfeed : env.feed = .ok d)
    (hnear : find_nearest_earthquake city.latitude city.longitude (some d) = some f) :
    post env st ⟨some cid, some sstr, some estr⟩ =
      (.created (buildRecord env.geodesic_km city sd ed (some f)),
        ⟨st.store ++ [buildRecord env.geodesic_km city sd ed (some f)],
          cacheSet st.cache (cacheKey cid sstr estr)
            (buildRecord env.geodesic_km city sd ed (some f))⟩, true) ∧
    (buildRecord env.geodesic_km city sd ed (some f)).distance_km =
      some (env.geodesic_km city.latitude city.longitude
        (f.geometry.coordinates.getD 1 0) (f.geometry.coordinates.getD 0 0)) := by
  have h := post_feed_ok env st cid sstr estr city sd ed d
    hcid hs he hcity hsd hed hord hcache hstore hfeed
  rw [hnear] at h
  exact ⟨h, rfl⟩

theorem claim_C1_witness :
    post ⟨[⟨1, "c", 0, 0⟩], .ok [("features", [⟨⟨[90, 0, 10]⟩, ⟨5.7, "Q", 0⟩⟩])],
        fun _ _ _ _ => 0⟩ ⟨[], []⟩ ⟨some 1, some "2021-06-01", some "2021-07-05"⟩ =
      (.created (buildRecord (fun _ _ _ _ => 0) ⟨1, "c", 0, 0⟩ ⟨2021, 6, 1⟩ ⟨2021, 7, 5⟩
          (some ⟨⟨[90, 0, 10]⟩, ⟨5.7, "Q", 0⟩⟩)),
        ⟨[buildRecord (fun _ _ _ _ => 0) ⟨1, "c", 0, 0⟩ ⟨2021, 6, 1⟩ ⟨2021, 7, 5⟩
            (some ⟨⟨[90, 0, 10]⟩, ⟨5.7, "Q", 0⟩⟩)],
          cacheSet [] (cacheKey 1 "2021-06-01" "2021-07-05")
            (buildRecord (fun _ _ _ _ => 0) ⟨1, "c", 0, 0⟩ ⟨2021, 6, 1⟩ ⟨2021, 7, 5⟩
              (some ⟨⟨[90, 0, 10]⟩, ⟨5.7, "Q", 0⟩⟩))⟩, true) ∧
    (buildRecord (fun _ _ _ _ => (0:ℝ)) ⟨1, "c", 0, 0⟩ ⟨2021, 6, 1⟩ ⟨2021, 7, 5⟩
      (some ⟨⟨[90, 0, 10]⟩, ⟨5.7, "Q", 0⟩⟩)).distance_km = some 0 :=
  claim_C1 ⟨[⟨1, "c", 0, 0⟩], .ok [("features", [⟨⟨[90, 0, 10]⟩, ⟨5.7, "Q", 0⟩⟩])],
      fun _ _ _ _ => 0⟩ ⟨[], []⟩ 1 "2021-06-01" "2021-07-05"
    ⟨1, "c", 0, 0⟩ ⟨2021, 6, 1⟩ ⟨2021, 7, 5⟩
    [("features", [⟨⟨[90, 0, 10]⟩, ⟨5.7, "Q", 0⟩⟩])] ⟨⟨[90, 0, 10]⟩, ⟨5.7, "Q", 0⟩⟩
    (by decide) (by decide) (by decide) rfl (by decide) (by decide) (by decide) rfl rfl rfl
    (find_nearest_eq_pick 0 0 [("features", [⟨⟨[90, 0, 10]⟩, ⟨5.7, "Q", 0⟩⟩])]
      ⟨⟨[90, 0, 10]⟩, ⟨5.7, "Q", 0⟩⟩ [] rfl)

/-- C1 counterexample: a resolved search whose persisted distance_km (the
geodesic value, here instantiated with a geodesic function returning 0) is
not the haversine calculate_distance between the city (0, 0) and the selected
event at latitude 0, longitude 90. -/
theorem claim_C1_counterexample :
    (post ⟨[⟨1, "c", 0, 0⟩], .ok [("features", [⟨⟨[90, 0, 10]⟩, ⟨5.7, "Q", 0⟩⟩])],
        fun _ _ _ _ => 0⟩ ⟨[], []⟩ ⟨some 1, some "2021-06-01", some "2021-07-05"⟩).1 =
      .created (buildRecord (fun _ _ _ _ => 0) ⟨1, "c", 0, 0⟩ ⟨2021, 6, 1⟩ ⟨2021, 7, 5⟩
        (some ⟨⟨[90, 0, 10]⟩, ⟨5.7, "Q", 0⟩⟩)) ∧
    (buildRecord (fun _ _ _ _ => (0:ℝ)) ⟨1, "c", 0, 0⟩ ⟨2021, 6, 1⟩ ⟨2021, 7, 5⟩
      (some ⟨⟨[90, 0, 10]⟩, ⟨5.7, "Q", 0⟩⟩)).distance_km = some 0 ∧
    calculate_distance 0 0 0 90 ≠ 0 := by
  refine ⟨?_, rfl, ?_⟩
  · have hn : find_nearest_earthquake (0:ℝ) (0:ℝ)
        (some [("features", [(⟨⟨[90, 0, 10]⟩, ⟨5.7, "Q", 0⟩⟩ : Feature)])]) =
        some ⟨⟨[90, 0, 10]⟩, ⟨5.7, "Q", 0⟩⟩ :=
      find_nearest_eq_pick 0 0 _ _ [] rfl
    have h := post_feed_ok
      ⟨[⟨1, "c", 0, 0⟩], .ok [("features", [⟨⟨[90, 0, 10]⟩, ⟨5.7, "Q", 0⟩⟩])],
        fun _ _ _ _ => 0⟩ ⟨[], []⟩ 1 "2021-06-01" "2021-07-05"
      ⟨1, "c", 0, 0⟩ ⟨2021, 6, 1⟩ ⟨2021, 7, 5⟩
      [("features", [⟨⟨[90, 0, 10]⟩, ⟨5.7, "Q", 0⟩⟩])]
      (by decide) (by decide) (by decide) rfl (by decide) (by decide) (by decide) rfl rfl rfl
    dsimp only at h
    rw [hn] at h
    rw [h]
  · rw [calculate_distance_zero_ninety]
    have := Real.pi_pos
    positivity

/-- C6 amended: for the city at (34.052235, -118.243683) and the single mock
feed event at latitude 34.2, longitude -118.5, magnitude 5.7, epoch time
1625053800000 ms, place Mock Quake, the resolved result has magnitude 5.7,
UTC time 2021-06-30T11:50:00Z (not 10:30:00Z), distance_km equal to the geopy
geodesic value, and the haversine distance between the city and the event is
approximately 28.7 km (strictly between 28 and 29), not 20.6. -/
theorem claim_C6 (g : ℝ → ℝ → ℝ → ℝ → ℝ) (st : ServerState)
    (hcache : cacheGet st.cache (cacheKey 1 "2021-06-01" "2021-07-05") = none)
    (hstore : findResult st.store 1 ⟨2021, 6, 1⟩ ⟨2021, 7, 5⟩ = none) :
    post ⟨[⟨1, "Los Angeles", 34.052235, -118.243683⟩],
        .ok [("features", [⟨⟨[-118.5, 34.2, 10]⟩, ⟨5.7, "Mock Quake", 1625053800000⟩⟩])], g⟩
      st ⟨some 1, some "2021-06-01", some "2021-07-05"⟩ =
      (.created (buildRecord g ⟨1, "Los Angeles", 34.052235, -118.243683⟩
          ⟨2021, 6, 1⟩ ⟨2021, 7, 5⟩
          (some ⟨⟨[-118.5, 34.2, 10]⟩, ⟨5.7, "Mock Quake", 1625053800000⟩⟩)),
        ⟨st.store ++ [buildRecord g ⟨1, "Los Angeles", 34.052235, -118.243683⟩
            ⟨2021, 6, 1⟩ ⟨2021, 7, 5⟩
            (some ⟨⟨[-118.5, 34.2, 10]⟩, ⟨5.7, "Mock Quake", 1625053800000⟩⟩)],
          cacheSet st.cache (cacheKey 1 "2021-06-01" "2021-07-05")
            (buildRecord g ⟨1, "Los Angeles", 34.052235, -118.243683⟩
              ⟨2021, 6, 1⟩ ⟨2021, 7, 5⟩
              (some ⟨⟨[-118.5, 34.2, 10]⟩, ⟨5.7, "Mock Quake", 1625053800000⟩⟩))⟩, true) ∧
    (buildRecord g ⟨1, "Los Angeles", 34.052235, -118.243683⟩ ⟨2021, 6, 1⟩ ⟨2021, 7, 5⟩
      (some ⟨⟨[-118.5, 34.2, 10]⟩,
        ⟨5.7, "Mock Quake", 1625053800000⟩⟩)).nearest_earthquake_magnitude = some 5.7 ∧
    (buildRecord g ⟨1, "Los Angeles", 34.052235, -118.243683⟩ ⟨2021, 6, 1⟩ ⟨2021, 7, 5⟩
      (some ⟨⟨[-118.5, 34.2, 10]⟩,
        ⟨5.7, "Mock Quake", 1625053800000⟩⟩)).nearest_earthquake_time =
      some ⟨2021, 6, 30, 11, 50, 0⟩ ∧
    (buildRecord g ⟨1, "Los Angeles", 34.052235, -118.243683⟩ ⟨2021, 6, 1⟩ ⟨2021, 7, 5⟩
      (some ⟨⟨[-118.5, 34.2, 10]⟩,
        ⟨5.7, "Mock Quake", 1625053800000⟩⟩)).distance_km =
      some (g 34.052235 (-118.243683) 34.2 (-118.5)) ∧
    28 < calculate_distance 34.052235 (-118.243683) 34.2 (-118.5) ∧
    calculate_distance 34.052235 (-118.243683) 34.2 (-118.5) < 29 := by
  have hn : find_nearest_earthquake (34.052235 : ℝ) ((-118.243683) : ℝ)
      (some [("features", [(⟨⟨[-118.5, 34.2, 10]⟩,
        ⟨5.7, "Mock Quake", 1625053800000⟩⟩ : Feature)])]) =
      some ⟨⟨[-118.5, 34.2, 10]⟩, ⟨5.7, "Mock Quake", 1625053800000⟩⟩ :=
    find_nearest_eq_pick _ _ _ _ [] rfl
  have h := post_feed_ok
    ⟨[⟨1, "Los Angeles", 34.052235, -118.243683⟩],
      .ok [("features", [⟨⟨[-118.5, 34.2, 10]⟩, ⟨5.7, "Mock Quake", 1625053800000⟩⟩])], g⟩
    st 1 "2021-06-01" "2021-07-05" ⟨1, "Los Angeles", 34.052235, -118.243683⟩
    ⟨2021, 6, 1⟩ ⟨2021, 7, 5⟩
    [("features", [⟨⟨[-118.5, 34.2, 10]⟩, ⟨5.7, "Mock Quake", 1625053800000⟩⟩])]
    (by decide) (by decide) (by decide) rfl (by decide) (by decide) (by decide)
    hcache hstore rfl
  dsimp only at h
  rw [hn] at h
  have hcast : (((1625053800000 : ℤ) : ℚ)) = (1625053800000 : ℚ) := by norm_num
  refine ⟨h, rfl, ?_, rfl, calculate_distance_concrete.1, calculate_distance_concrete.2⟩
  show some (utcFromTimestamp (((1625053800000 : ℤ) : ℚ) / 1000)) = _
  rw [hcast, utc_mock_quake]

theorem claim_C6_witness :
    post ⟨[⟨1, "Los Angeles", 34.052235, -118.243683⟩],
        .ok [("features", [⟨⟨[-118.5, 34.2, 10]⟩, ⟨5.7, "Mock Quake", 1625053800000⟩⟩])],
        fun _ _ _ _ => 0⟩
      ⟨[], []⟩ ⟨some 1, some "2021-06-01", some "2021-07-05"⟩ =
      (.created (buildRecord (fun _ _ _ _ => 0) ⟨1, "Los Angeles", 34.052235, -118.243683⟩
          ⟨2021, 6, 1⟩ ⟨2021, 7, 5⟩
          (some ⟨⟨[-118.5, 34.2, 10]⟩, ⟨5.7, "Mock Quake", 1625053800000⟩⟩)),
        ⟨[buildRecord (fun _ _ _ _ => 0) ⟨1, "Los Angeles", 34.052235, -118.243683⟩
            ⟨2021, 6, 1⟩ ⟨2021, 7, 5⟩
            (some ⟨⟨[-118.5, 34.2, 10]⟩, ⟨5.7, "Mock Quake", 1625053800000⟩⟩)],
          cacheSet [] (cacheKey 1 "2021-06-01" "2021-07-05")
            (buildRecord (fun _ _ _ _ => 0) ⟨1, "Los Angeles", 34.052235, -118.243683⟩
              ⟨2021, 6, 1⟩ ⟨2021, 7, 5⟩
              (some ⟨⟨[-118.5, 34.2, 10]⟩, ⟨5.7, "Mock Quake", 1625053800000⟩⟩))⟩, true) ∧
    (buildRecord (fun _ _ _ _ => (0:ℝ)) ⟨1, "Los Angeles", 34.052235, -118.243683⟩
      ⟨2021, 6, 1⟩ ⟨2021, 7, 5⟩
      (some ⟨⟨[-118.5, 34.2, 10]⟩,
        ⟨5.7, "Mock Quake", 1625053800000⟩⟩)).nearest_earthquake_magnitude = some 5.7 ∧
    (buildRecord (fun _ _ _ _ => (0:ℝ)) ⟨1, "Los Angeles", 34.052235, -118.243683⟩
      ⟨2021, 6, 1⟩ ⟨2021, 7, 5⟩
      (some ⟨⟨[-118.5, 34.2, 10]⟩,
        ⟨5.7, "Mock Quake", 1625053800000⟩⟩)).nearest_earthquake_time =
      some ⟨2021, 6, 30, 11, 50, 0⟩ ∧
    (buildRecord (fun _ _ _ _ => (0:ℝ)) ⟨1, "Los Angeles", 34.052235, -118.243683⟩
      ⟨2021, 6, 1⟩ ⟨2021, 7, 5⟩
      (some ⟨⟨[-118.5, 34.2, 10]⟩,
        ⟨5.7, "Mock Quake", 1625053800000⟩⟩)).distance_km =
      some ((fun _ _ _ _ => (0:ℝ)) 34.052235 (-118.243683) 34.2 (-118.5)) ∧
    28 < calculate_distance 34.052235 (-118.243683) 34.2 (-118.5) ∧
    calculate_distance 34.052235 (-118.243683) 34.2 (-118.5) < 29 :=
  claim_C6 (fun _ _ _ _ => 0) ⟨[], []⟩ rfl rfl

/-- C6 counterexample: the haversine distance for the concrete scenario is not
approximately 20.6 km (it exceeds 28), and epoch 1625053800000 ms is
2021-06-30T11:50:00Z, not 2021-06-30T10:30:00Z. -/
theorem claim_C6_counterexample :
    ¬ |calculate_distance 34.052235 (-118.243683) 34.2 (-118.5) - 20.6| ≤ 1 / 2 ∧
    utcFromTimestamp ((1625053800000 : ℚ) / 1000) ≠ ⟨2021, 6, 30, 10, 30, 0⟩ := by
  constructor
  · intro h
    rw [abs_le] at h
    have h28 := calculate_distance_concrete.1
    have h29 := calculate_distance_concrete.2
    linarith [h.2]
  · rw [utc_mock_quake]
    decide
